import Mathlib

/-!
Verification development for the crawler/parser pipeline in `scrapper.py`.

The Python source is shallowly embedded: HTML selector mechanics and HTTP
transport are parameters (environment records of pure functions), a Python
`set` becomes a duplicate-free `List String` in insertion order with explicit
set operations (`setAdd`, `setUpdate`, `setOfList`), Python exceptions become
`Except PErr`, persisted JSON state files become explicit values threaded
through the functions, and the unbounded self-recursion of
`CrawlerRecursive.find_articles` becomes a fuel-indexed recursion whose
out-of-fuel outcome is distinguished from normal return and crash.
-/

namespace Scrapper

/-- A fragment of Python's dynamic values, enough for the expressions the
source manipulates: ints, strings, booleans and `None`. -/
inductive PyVal where
  | vInt (n : Int)
  | vStr (s : String)
  | vBool (b : Bool)
  | vNone
deriving DecidableEq

/-- Python exceptions that the embedded code can raise. -/
inductive PErr where
  | typeError
  | indexError
  | attributeError
  | valueError
deriving DecidableEq

/-- Python truthiness of a `PyVal`. -/
def pyTruthy : PyVal → Bool
  | .vInt n => n != 0
  | .vStr s => s != ""
  | .vBool b => b
  | .vNone => false

/-- `BeautifulSoup(markup, 'lxml')`: succeeds on a string (returning the
markup, which selector functions of the environment then consume), and
raises `TypeError` on `None`, booleans and ints (bs4 calls `len(markup)`). -/
def beautifulSoup : PyVal → Except PErr String
  | .vStr s => .ok s
  | _ => .error .typeError

/-- View an `Optional[str]` as a Python value. -/
def optionToPy : Option String → PyVal
  | some s => .vStr s
  | none => .vNone

/-- Python slice `xs[:n]` for an `int` bound `n`: a negative bound counts
from the end (clamped at the start). -/
def pySliceTo {α : Type} (xs : List α) (n : Int) : List α :=
  if 0 ≤ n then xs.take n.toNat
  else xs.take (xs.length - (-n).toNat)

/-- Python `xs[0] = v` on a list of strings (no-op on `[]`; the embedding
only reaches it with a nonempty list, where `seed_urls[0]` was just read). -/
def setHead : List String → String → List String
  | [], _ => []
  | _ :: rest, v => v :: rest

/-- Adding one element to a Python set (list model: append when missing). -/
def setAdd (s : List String) (x : String) : List String :=
  if x ∈ s then s else s ++ [x]

/-- Python `s.update(links)`. -/
def setUpdate (s : List String) : List String → List String
  | [] => s
  | x :: xs => setUpdate (setAdd s x) xs

/-- Python `set(l)`: the distinct elements of `l`. -/
def setOfList (l : List String) : List String := setUpdate [] l

/-- Python `≤` on strings: lexicographic comparison by code point. -/
def strLe (a b : String) : Bool :=
  go a.toList b.toList
where
  go : List Char → List Char → Bool
    | [], _ => true
    | _ :: _, [] => false
    | c :: cs, d :: ds => if c < d then true else if c = d then go cs ds else false

/-- Insert into an ascending list, keeping it ascending. -/
def insertSorted (x : String) : List String → List String
  | [] => [x]
  | y :: ys => if strLe x y then x :: y :: ys else y :: insertSorted x ys

/-- Python `sorted(...)` on the elements of a set (ascending insertion sort). -/
def pySorted : List String → List String
  | [] => []
  | x :: xs => insertSorted x (pySorted xs)

/-- The external collaborators of the crawler: `fetch_page` (HTTP GET,
`None` on failure), the link selector of `Crawler._extract_url`, and the
`select_one('ul.pagination li:has(span.current) + li a')` pagination lookup
of `CrawlerRecursive.get_search_urls` (returning the anchor's `href` when
the control exists). All are pure: page content is fixed for a run. -/
structure CrawlEnv where
  fetch : String → Option String
  extract_url : String → List String
  next_seed : String → Option String

/-- The in-memory fields of a `Crawler`/`CrawlerRecursive` instance; `urls`
is the discovered-URL set (duplicate-free list). -/
structure CrawlMem where
  seed_urls : List String
  max_articles : Int
  max_articles_per_seed : Int
  urls : List String
deriving DecidableEq

/-- `Crawler._process_seed`: soup the page, take the first
`max_articles_per_seed` extracted links, then the first
`max_articles - len(urls)` of those. -/
def process_seed (env : CrawlEnv) (m : CrawlMem) (page : PyVal) :
    Except PErr (List String) :=
  match beautifulSoup page with
  | .error e => .error e
  | .ok soup =>
      let seed_articles := pySliceTo (env.extract_url soup) m.max_articles_per_seed
      .ok (pySliceTo seed_articles (m.max_articles - (m.urls.length : Int)))

/-- `Crawler.find_articles`, iterating over `get_search_urls() = seed_urls`.
The source line `if page := fetch_page(url) is None: continue` binds `page`
to the boolean `fetch_page(url) is None` (walrus precedence), so on a failed
fetch the seed is skipped, and on a successful fetch `_process_seed` receives
the boolean `False` instead of the page body. -/
def find_articles (env : CrawlEnv) (m : CrawlMem) :
    List String → Except PErr CrawlMem
  | [] => .ok m
  | url :: rest =>
      let page : PyVal := .vBool (env.fetch url).isNone
      if pyTruthy page then find_articles env m rest
      else
        match process_seed env m page with
        | .error e => .error e
        | .ok links =>
            let m' : CrawlMem := { m with urls := setUpdate m.urls links }
            if (m'.urls.length : Int) = m'.max_articles then .ok m'
            else find_articles env m' rest

/-- The persisted `CRAWLER_STATE` JSON file:
`{"urls": sorted(urls), "seed": seed_urls}`. -/
structure CrawlStateFile where
  urls : List String
  seed : List String
deriving DecidableEq

/-- `CrawlerRecursive._save_state`: the file written for a memory state. -/
def save_file (m : CrawlMem) : CrawlStateFile :=
  { urls := pySorted m.urls, seed := m.seed_urls }

/-- `CrawlerRecursive._load_state`: when the state file exists, overwrite
`seed_urls` and `urls` (as `set(status['urls'])`) from it; otherwise leave
the instance unchanged. -/
def load_state (d : Option CrawlStateFile) (m : CrawlMem) : CrawlMem :=
  match d with
  | none => m
  | some st => { m with seed_urls := st.seed, urls := setOfList st.urls }

/-- `CrawlerRecursive.get_search_urls`: read `seed_urls[0]` (IndexError on
an empty list), fetch and soup it (TypeError when the fetch failed), locate
the next-page anchor (`next_page['href']` raises TypeError when `select_one`
returned `None`), and return `(seed, next_page['href'])`. -/
def get_search_urls (env : CrawlEnv) (m : CrawlMem) :
    Except PErr (String × String) :=
  match m.seed_urls with
  | [] => .error .indexError
  | seed :: _ =>
      match beautifulSoup (optionToPy (env.fetch seed)) with
      | .error e => .error e
      | .ok soup =>
          match env.next_seed soup with
          | none => .error .typeError
          | some href => .ok (seed, href)

/-- Outcome of one call body of `CrawlerRecursive.find_articles`, stopping
short of the trailing self-call: `finished` is the `return` on reaching
`max_articles`, `more` carries the state after `_save_state`, `crashed` is an
uncaught exception; each constructor carries the on-disk state at that point. -/
inductive IterResult where
  | finished (m : CrawlMem) (d : Option CrawlStateFile)
  | more (d : Option CrawlStateFile) (m : CrawlMem)
  | crashed (d : Option CrawlStateFile)
deriving DecidableEq

/-- The body of one `CrawlerRecursive.find_articles` call after
`_load_state()`: `seed, seed_urls[0] = get_search_urls()`;
`page = fetch_page(seed)`; `links = _process_seed(page)` (the head
replacement does not change `urls` or the caps, so `_process_seed` slices
with `m.urls` and `m.max_articles`); `urls.update(links)`; `return` when
`len(urls) == max_articles`; otherwise `_save_state()` and recurse. -/
def crawl_body (env : CrawlEnv) (d : Option CrawlStateFile) (m : CrawlMem) :
    IterResult :=
  match get_search_urls env m with
  | .error _ => .crashed d
  | .ok (seed, nxt) =>
      match process_seed env { m with seed_urls := setHead m.seed_urls nxt }
          (optionToPy (env.fetch seed)) with
      | .error _ => .crashed d
      | .ok links =>
          if ((setUpdate m.urls links).length : Int) = m.max_articles then
            .finished
              { m with seed_urls := setHead m.seed_urls nxt,
                       urls := setUpdate m.urls links } d
          else
            .more
              (some (save_file
                { m with seed_urls := setHead m.seed_urls nxt,
                         urls := setUpdate m.urls links }))
              { m with seed_urls := setHead m.seed_urls nxt,
                       urls := setUpdate m.urls links }

/-- One call body of `CrawlerRecursive.find_articles`: `_load_state()`
followed by `crawl_body`. -/
def crawl_iter (env : CrawlEnv) (d : Option CrawlStateFile) (m₀ : CrawlMem) :
    IterResult :=
  crawl_body env d (load_state d m₀)

/-- Result of running the recursive walk to completion. -/
inductive RunResult where
  | done (m : CrawlMem) (d : Option CrawlStateFile)
  | crashed (d : Option CrawlStateFile)
  | fuel_out
deriving DecidableEq

/-- `CrawlerRecursive.find_articles` as a fuel-indexed iteration of
`crawl_iter` (the source recurses without bound; `fuel_out` marks runs
longer than the given fuel). -/
def find_articles_rec (env : CrawlEnv) :
    Nat → Option CrawlStateFile → CrawlMem → RunResult
  | 0, _, _ => .fuel_out
  | n + 1, d, m =>
      match crawl_iter env d m with
      | .finished m' d' => .done m' d'
      | .crashed d' => .crashed d'
      | .more d' m' => find_articles_rec env n d' m'

/-- The (disk, memory) state after `n` completed continue-steps of the
recursive walk; `none` when the walk ended (or crashed) strictly earlier. -/
def crawl_state_after (env : CrawlEnv) :
    Nat → Option CrawlStateFile → CrawlMem →
    Option (Option CrawlStateFile × CrawlMem)
  | 0, d, m => some (d, m)
  | n + 1, d, m =>
      match crawl_iter env d m with
      | .more d' m' => crawl_state_after env n d' m'
      | _ => none

/-- The external collaborators of `ArticleParser.parse`: `fetch_page`, the
paragraph-join of `_fill_article_with_text`, the `select_one` lookups of
`_fill_article_with_meta_information` (`h1`, `li.autor`, the `datetime`
attribute of `time.entry-date`), the category-anchor texts, and
`datetime.fromisoformat` (`None` encodes the `ValueError` on a non-ISO-8601
string; the parsed datetime is abstracted to an `Int`). -/
structure ParseEnv where
  fetch : String → Option String
  text_of : String → String
  title_of : String → Option String
  author_of : String → Option String
  date_attr_of : String → Option String
  topics_of : String → List String
  fromisoformat : String → Option Int

/-- The persisted `PARSER_STATE` JSON file: `{"processed": [...]}`. -/
structure ParserDisk where
  processed : List String
deriving DecidableEq

/-- `ArticleParser._load_state`: the recorded URLs, empty when the file is
absent (the source returns `{}` there, whose membership test is also empty). -/
def processedOf : Option ParserDisk → List String
  | none => []
  | some f => f.processed

/-- Modelled from the spec: the `Article` record of `article.py` (not under
`src/`), "identified by `(sequence_id, url)`" with the structured fields
filled by the parser; its `url` attribute is the constructor's `full_url`. -/
structure Article where
  url : String
  article_id : Int
  title : String
  author : String
  date : Int
  topics : List String
  text : String
deriving DecidableEq

/-- How a successful `ArticleParser.parse` call returned: at the
already-recorded early return, or after the full fetch/extract work. -/
inductive ParseOutcome where
  | skippedAlready
  | parsed (a : Article)
deriving DecidableEq

/-- `ArticleParser.parse`: return immediately when `full_url` is in the
persisted parsed set; otherwise fetch (the trailing `Nat` counts fetches),
soup (TypeError on a failed fetch), fill text and meta information
(AttributeError when a `select_one` returns `None`, ValueError from
`fromisoformat`), then `_save_state` appends the URL to the persisted set. -/
def parse (env : ParseEnv) (d : Option ParserDisk) (full_url : String)
    (article_id : Int) : Except PErr (ParseOutcome × Option ParserDisk × Nat) :=
  if full_url ∈ processedOf d then .ok (.skippedAlready, d, 0)
  else
    match beautifulSoup (optionToPy (env.fetch full_url)) with
    | .error e => .error e
    | .ok soup =>
        match env.title_of soup with
        | none => .error .attributeError
        | some title =>
            match env.author_of soup with
            | none => .error .attributeError
            | some author =>
                match env.date_attr_of soup with
                | none => .error .attributeError
                | some dstr =>
                    match env.fromisoformat dstr with
                    | none => .error .valueError
                    | some dt =>
                        .ok (.parsed
                              { url := full_url, article_id := article_id,
                                title := title, author := author, date := dt,
                                topics := env.topics_of soup,
                                text := env.text_of soup },
                             some ⟨processedOf d ++ [full_url]⟩, 1)

/-- The parse loop of `main`: walk the enumerated sorted URLs, recording in
order each `ArticleParser(full_url=..., article_id=...)` construction, and
abort on the first uncaught exception (it propagates out of `main`). Returns
(constructions, final parser state file, the aborting exception if any). -/
def parse_loop (env : ParseEnv) :
    List (Nat × String) → Option ParserDisk → List (Nat × String) →
    List (Nat × String) × Option ParserDisk × Option PErr
  | [], d, tr => (tr, d, none)
  | (i, u) :: rest, d, tr =>
      match parse env d u (i : Int) with
      | .error e => (tr ++ [(i, u)], d, some e)
      | .ok (_, d', _) => parse_loop env rest d' (tr ++ [(i, u)])

/-- The parse phase of `main`:
`for idx, article_url in enumerate(sorted(crawler.urls)): ...`. -/
def parse_phase (env : ParseEnv) (urls : List String) :
    List (Nat × String) × Option ParserDisk × Option PErr :=
  parse_loop env (List.enum (pySorted urls)) none []

/-- Character class `[0-9a-z]` under `re.I`. -/
def clsA (c : Char) : Bool :=
  (('0' ≤ c) && (c ≤ '9')) || (('a' ≤ c) && (c ≤ 'z')) || (('A' ≤ c) && (c ≤ 'Z'))

/-- Character class `[-_0-9a-z]` under `re.I`. -/
def clsB (c : Char) : Bool := (c == '-') || (c == '_') || clsA c

/-- Character class `[0-9a-z/]` under `re.I`. -/
def clsC (c : Char) : Bool := (c == '/') || clsA c

/-- Backtracking match of `p+` followed by the continuation `k`: some
nonempty prefix of `p`-characters is consumed and `k` accepts the rest. -/
def matchPlus (p : Char → Bool) (k : List Char → Bool) : List Char → Bool
  | [] => false
  | c :: cs => p c && (k cs || matchPlus p k cs)

/-- The regex tail `[0-9a-z]+\.[-_0-9a-z]+\.[0-9a-z/]+` (unanchored at the
end, so anything may follow the last matched character). -/
def matchHost : List Char → Bool :=
  matchPlus clsA fun cs =>
    match cs with
    | '.' :: cs1 =>
        matchPlus clsB (fun cs2 =>
          match cs2 with
          | '.' :: cs3 => matchPlus clsC (fun _ => true) cs3
          | _ => false) cs1
    | _ => false

/-- Strip a literal prefix case-insensitively (the pattern letters are
lowercase; `re.I` makes them match either case). -/
def stripCI (pre : List Char) (cs : List Char) : Option (List Char) :=
  match pre, cs with
  | [], rest => some rest
  | p :: ps, c :: rest => if c.toLower = p then stripCI ps rest else none
  | _ :: _, [] => none

/-- `re.compile(r'^(https?://)?[0-9a-z]+\.[-_0-9a-z]+\.[0-9a-z/]+', re.I)`
applied with `.match` (anchored at the start): the optional scheme group is
tried with `https://`, with `http://`, and empty. -/
def url_check (s : String) : Bool :=
  let cs := s.toList
  (match stripCI "https://".toList cs with
   | some rest => matchHost rest
   | none => false)
  || (match stripCI "http://".toList cs with
      | some rest => matchHost rest
      | none => false)
  || matchHost cs

/-- The error classes raised by `validate_config`. -/
inductive ConfigError where
  | incorrectURL
  | incorrectNumberOfArticles
  | numberOfArticlesOutOfRange
  | unknownConfig
deriving DecidableEq

/-- The already-JSON-decoded crawler config: each field is `none` when the
key is missing from the file (Python's `KeyError`). `base_urls` entries are
modelled as strings (the source applies `str(x)` before the regex). -/
structure Config where
  base_urls : Option (List String)
  total_articles : Option PyVal
  max_per_seed : Option PyVal

/-- Python `isinstance(x, int)` (`bool` is a subclass of `int`). -/
def pyIsInt : PyVal → Bool
  | .vInt _ => true
  | .vBool _ => true
  | _ => false

/-- The integer value of an int-like `PyVal` (unused on other shapes). -/
def pyToInt : PyVal → Int
  | .vInt n => n
  | .vBool b => if b then 1 else 0
  | _ => 0

/-- `validate_config`: a missing key raises `KeyError`, caught and re-raised
as `UnknownConfigError`; the three checks fire in tuple order (URL shape,
count is an int, count in `(0, 100000]`); on success the triple
`(base_urls, total count, max-per-seed value)` is returned, the last read
from the config without any check. -/
def validate_config (c : Config) :
    Except ConfigError (List String × PyVal × PyVal) :=
  match c.total_articles with
  | none => .error .unknownConfig
  | some total_num =>
      match c.base_urls with
      | none => .error .unknownConfig
      | some urls =>
          let is_correct_total_num := pyIsInt total_num
          let is_correct_url := urls.all (fun x => url_check x)
          let is_num_not_oor := is_correct_total_num
            && decide (0 < pyToInt total_num)
            && decide (pyToInt total_num ≤ 100000)
          if !is_correct_url then .error .incorrectURL
          else if !is_correct_total_num then .error .incorrectNumberOfArticles
          else if !is_num_not_oor then .error .numberOfArticlesOutOfRange
          else
            match c.max_per_seed with
            | none => .error .unknownConfig
            | some mps => .ok (urls, total_num, mps)

/-- The size invariant on a persisted crawl-state file: the URL set it
restores has at most `ma` elements (vacuous when no file exists yet). -/
def diskOK (ma : Int) : Option CrawlStateFile → Prop
  | none => True
  | some f => ((setOfList f.urls).length : Int) ≤ ma

instance (ma : Int) (d : Option CrawlStateFile) : Decidable (diskOK ma d) := by
  unfold diskOK
  cases d <;> infer_instance

/-- Concrete two-listing-page site for witnesses: seed `s1` lists `a, b`
and points to `s2`; `s2` lists `c` and points to `s3`. -/
def envW : CrawlEnv where
  fetch := fun u => if u = "s1" then some "P1" else if u = "s2" then some "P2" else none
  extract_url := fun p => if p = "P1" then ["a", "b"] else if p = "P2" then ["c"] else []
  next_seed := fun p => if p = "P1" then some "s2" else if p = "P2" then some "s3" else none

/-- A fresh crawler for `envW`: first seed `s1`, `max_articles = 3`,
`max_articles_per_seed = 5`, no URLs discovered yet. -/
def m0W : CrawlMem := ⟨["s1"], 3, 5, []⟩

/-- The crawl-state file persisted after the first `envW` step. -/
def sW : CrawlStateFile := ⟨["a", "b"], ["s2"]⟩

/-- The in-memory state after the first `envW` step. -/
def m1W : CrawlMem := ⟨["s2"], 3, 5, ["a", "b"]⟩

/-- The final in-memory state of the `envW` walk (cap 3 reached). -/
def mUW : CrawlMem := ⟨["s3"], 3, 5, ["a", "b", "c"]⟩

/-- Environment whose every fetch succeeds (for the walrus-operator bug). -/
def envC4ok : CrawlEnv where
  fetch := fun _ => some "<html><div>x</div></html>"
  extract_url := fun _ => ["u1", "u2"]
  next_seed := fun _ => none

/-- Environment whose every fetch fails. -/
def envC4fail : CrawlEnv where
  fetch := fun _ => none
  extract_url := fun _ => ["u1"]
  next_seed := fun _ => none

/-- A crawler memory used by the plain-`Crawler` theorems. -/
def mC4 : CrawlMem := ⟨["s"], 10, 5, []⟩

/-- A site whose listing page `s1` has no next-pagination control. -/
def envC5 : CrawlEnv where
  fetch := fun u => if u = "s1" then some "PAGE1" else none
  extract_url := fun _ => ["u1"]
  next_seed := fun _ => none

/-- A fresh crawler for `envC5` (cap far from reached). -/
def mC5 : CrawlMem := ⟨["s1"], 10, 5, []⟩

/-- A one-page site whose single listing fills the whole cap at once. -/
def envC8 : CrawlEnv where
  fetch := fun u => if u = "s1" then some "P1" else none
  extract_url := fun p => if p = "P1" then ["a", "b", "c"] else []
  next_seed := fun p => if p = "P1" then some "s2" else none

/-- A fresh crawler for `envC8` with `max_articles = 3`. -/
def mC8 : CrawlMem := ⟨["s1"], 3, 5, []⟩

/-- An article site where every page parses cleanly. -/
def envP3 : ParseEnv where
  fetch := fun _ => some "PG"
  text_of := fun _ => "paragraphs"
  title_of := fun _ => some "H"
  author_of := fun _ => some "A"
  date_attr_of := fun _ => some "2021-04-04"
  topics_of := fun _ => ["t"]
  fromisoformat := fun s => if s = "2021-04-04" then some 1617494400 else none

/-- An article site where the first article (in sorted URL order) carries a
non-ISO-8601 datetime attribute and the second is perfectly fine. -/
def envP7 : ParseEnv where
  fetch := fun u =>
    if u = "a.com/1" then some "PG1" else if u = "a.com/2" then some "PG2" else none
  text_of := fun _ => "body"
  title_of := fun _ => some "H"
  author_of := fun _ => some "A"
  date_attr_of := fun p => if p = "PG1" then some "04.04.2021" else some "2021-04-04"
  topics_of := fun _ => []
  fromisoformat := fun s => if s = "2021-04-04" then some 0 else none

/-- An article site where every article parses cleanly (sequence-id order
witness). -/
def envP9 : ParseEnv where
  fetch := fun _ => some "PG"
  text_of := fun _ => "body"
  title_of := fun _ => some "H"
  author_of := fun _ => some "A"
  date_attr_of := fun _ => some "2021-04-04"
  topics_of := fun _ => []
  fromisoformat := fun s => if s = "2021-04-04" then some 0 else none

theorem length_pySliceTo_le_self {α : Type} (xs : List α) (n : Int) :
    (pySliceTo xs n).length ≤ xs.length := by
  unfold pySliceTo
  split <;> (rw [List.length_take]; omega)

theorem length_pySliceTo_le {α : Type} (xs : List α) (n : Int) (hn : 0 ≤ n) :
    ((pySliceTo xs n).length : Int) ≤ n := by
  unfold pySliceTo
  rw [if_pos hn, List.length_take]
  omega

theorem setAdd_length_le (s : List String) (x : String) :
    (setAdd s x).length ≤ s.length + 1 := by
  unfold setAdd
  split <;> simp

theorem setUpdate_length_le (l : List String) :
    ∀ s, (setUpdate s l).length ≤ s.length + l.length := by
  induction l with
  | nil => intro s; simp [setUpdate]
  | cons x xs ih =>
      intro s
      have h1 := ih (setAdd s x)
      have h2 := setAdd_length_le s x
      simp only [setUpdate, List.length_cons]
      omega

theorem setOfList_length_le (l : List String) : (setOfList l).length ≤ l.length := by
  simpa [setOfList] using setUpdate_length_le l []

theorem insertSorted_length (x : String) (l : List String) :
    (insertSorted x l).length = l.length + 1 := by
  induction l with
  | nil => rfl
  | cons y ys ih =>
      simp only [insertSorted]
      split <;> simp [ih]

theorem pySorted_length (l : List String) : (pySorted l).length = l.length := by
  induction l with
  | nil => rfl
  | cons x xs ih => simp [pySorted, insertSorted_length, ih]

theorem process_seed_ok_eq (env : CrawlEnv) (m : CrawlMem) (page : String)
    (links : List String) (h : process_seed env m (.vStr page) = .ok links) :
    links = pySliceTo (pySliceTo (env.extract_url page) m.max_articles_per_seed)
      (m.max_articles - (m.urls.length : Int)) := by
  simp only [process_seed, beautifulSoup, Except.ok.injEq] at h
  exact h.symm

theorem crawl_body_more_inv (env : CrawlEnv) (d : Option CrawlStateFile)
    (m : CrawlMem) (d' : Option CrawlStateFile) (m' : CrawlMem)
    (h : crawl_body env d m = .more d' m') :
    ∃ seed nxt links,
      get_search_urls env m = .ok (seed, nxt) ∧
      process_seed env { m with seed_urls := setHead m.seed_urls nxt }
        (optionToPy (env.fetch seed)) = .ok links ∧
      m' = { m with seed_urls := setHead m.seed_urls nxt,
                    urls := setUpdate m.urls links } ∧
      d' = some (save_file m') ∧
      ((setUpdate m.urls links).length : Int) ≠ m.max_articles := by
  unfold crawl_body at h
  split at h
  · exact absurd h (by simp)
  · rename_i seed nxt hg
    split at h
    · exact absurd h (by simp)
    · rename_i links hp
      split at h
      · exact absurd h (by simp)
      · rename_i hc
        simp only [IterResult.more.injEq] at h
        obtain ⟨hd, hm⟩ := h
        exact ⟨seed, nxt, links, hg, hp, hm.symm, by rw [← hd, hm], hc⟩

theorem crawl_body_finished_inv (env : CrawlEnv) (d : Option CrawlStateFile)
    (m : CrawlMem) (d' : Option CrawlStateFile) (m' : CrawlMem)
    (h : crawl_body env d m = .finished m' d') :
    ∃ seed nxt links,
      get_search_urls env m = .ok (seed, nxt) ∧
      process_seed env { m with seed_urls := setHead m.seed_urls nxt }
        (optionToPy (env.fetch seed)) = .ok links ∧
      m' = { m with seed_urls := setHead m.seed_urls nxt,
                    urls := setUpdate m.urls links } ∧
      d' = d ∧
      ((setUpdate m.urls links).length : Int) = m.max_articles := by
  unfold crawl_body at h
  split at h
  · exact absurd h (by simp)
  · rename_i seed nxt hg
    split at h
    · exact absurd h (by simp)
    · rename_i links hp
      split at h
      · rename_i hc
        simp only [IterResult.finished.injEq] at h
        obtain ⟨hm, hd⟩ := h
        exact ⟨seed, nxt, links, hg, hp, hm.symm, hd.symm, hc⟩
      · exact absurd h (by simp)

theorem load_state_max (d : Option CrawlStateFile) (m : CrawlMem) :
    (load_state d m).max_articles = m.max_articles ∧
    (load_state d m).max_articles_per_seed = m.max_articles_per_seed := by
  cases d <;> simp [load_state]

theorem load_state_some_eq (s : CrawlStateFile) (a b : CrawlMem)
    (hA : a.max_articles = b.max_articles)
    (hP : a.max_articles_per_seed = b.max_articles_per_seed) :
    load_state (some s) a = load_state (some s) b := by
  cases a; cases b
  simp_all [load_state]

theorem crawl_iter_cfg (env : CrawlEnv) (s : CrawlStateFile) (a b : CrawlMem)
    (hA : a.max_articles = b.max_articles)
    (hP : a.max_articles_per_seed = b.max_articles_per_seed) :
    crawl_iter env (some s) a = crawl_iter env (some s) b := by
  unfold crawl_iter
  rw [load_state_some_eq s a b hA hP]

theorem find_articles_rec_cfg (env : CrawlEnv) (a b : CrawlMem)
    (hA : a.max_articles = b.max_articles)
    (hP : a.max_articles_per_seed = b.max_articles_per_seed) :
    ∀ (F : Nat) (s : CrawlStateFile),
      find_articles_rec env F (some s) a = find_articles_rec env F (some s) b := by
  intro F
  induction F with
  | zero => intro s; rfl
  | succ F ihF =>
      intro s
      rw [find_articles_rec, find_articles_rec, crawl_iter_cfg env s a b hA hP]

theorem crawl_iter_more_max (env : CrawlEnv) (d : Option CrawlStateFile)
    (m : CrawlMem) (d' : Option CrawlStateFile) (m' : CrawlMem)
    (h : crawl_iter env d m = .more d' m') :
    m'.max_articles = m.max_articles ∧
    m'.max_articles_per_seed = m.max_articles_per_seed := by
  unfold crawl_iter at h
  obtain ⟨seed, nxt, links, hg, hp, hm, hd, hne⟩ :=
    crawl_body_more_inv env d (load_state d m) d' m' h
  constructor <;> simp [hm, (load_state_max d m).1, (load_state_max d m).2]

theorem find_articles_rec_mono (env : CrawlEnv) :
    ∀ (F : Nat) (d : Option CrawlStateFile) (m U : CrawlMem)
      (dend : Option CrawlStateFile),
      find_articles_rec env F d m = .done U dend →
      find_articles_rec env (F + 1) d m = .done U dend := by
  intro F
  induction F with
  | zero => intro d m U dend h; rw [find_articles_rec] at h; simp at h
  | succ F ihF =>
      intro d m U dend h
      rw [find_articles_rec] at h
      rw [find_articles_rec]
      cases hit : crawl_iter env d m with
      | finished m' d' => rw [hit] at h; exact h
      | crashed d' => rw [hit] at h; simp at h
      | more d' m' => rw [hit] at h; exact ihF d' m' U dend h

/-- Claim C3: `ArticleParser.parse` is idempotent per URL. Whenever a call
on state `d` returns successfully, the membership check made the call a
fetch-free no-op if the URL was already recorded (outcome `skippedAlready`,
state unchanged, zero fetches), the call fetched at most once, and a second
`parse` of the same URL on the resulting state is a no-op with zero
fetches. -/
theorem claim3_parse_idempotent (env : ParseEnv) (d : Option ParserDisk)
    (full_url : String) (id1 id2 : Int) (o1 : ParseOutcome)
    (d1 : Option ParserDisk) (c1 : Nat)
    (h : parse env d full_url id1 = .ok (o1, d1, c1)) :
    parse env d1 full_url id2 = .ok (.skippedAlready, d1, 0) ∧ c1 ≤ 1 ∧
      (full_url ∈ processedOf d → o1 = .skippedAlready ∧ d1 = d ∧ c1 = 0) := by
  by_cases hmem : full_url ∈ processedOf d
  · rw [parse, if_pos hmem] at h
    simp only [Except.ok.injEq, Prod.mk.injEq] at h
    obtain ⟨ho, hd, hc⟩ := h
    subst hd
    refine ⟨?_, by omega, fun _ => ⟨ho.symm, rfl, hc.symm⟩⟩
    rw [parse, if_pos hmem]
  · rw [parse, if_neg hmem] at h
    split at h
    · exact absurd h (by simp)
    · split at h
      · exact absurd h (by simp)
      · split at h
        · exact absurd h (by simp)
        · split at h
          · exact absurd h (by simp)
          · split at h
            · exact absurd h (by simp)
            · simp only [Except.ok.injEq, Prod.mk.injEq] at h
              obtain ⟨ho, hd, hc⟩ := h
              subst hd
              refine ⟨?_, by omega, fun hm => absurd hm hmem⟩
              rw [parse, if_pos (by simp [processedOf])]

/-- Witness for C3 at a concrete article site: the first `parse` does the
work once (one fetch, URL appended to the persisted set) and the second
call on the updated state is a fetch-free no-op. -/
theorem claim3_witness :
    parse envP3 none "u" 0 =
      .ok (.parsed ⟨"u", 0, "H", "A", 1617494400, ["t"], "paragraphs"⟩,
           some ⟨["u"]⟩, 1) ∧
    parse envP3 (some ⟨["u"]⟩) "u" 1 = .ok (.skippedAlready, some ⟨["u"]⟩, 0) ∧
    (1 : Nat) ≤ 1 := by
  have h := claim3_parse_idempotent envP3 none "u" 0 1
    (.parsed ⟨"u", 0, "H", "A", 1617494400, ["t"], "paragraphs"⟩)
    (some ⟨["u"]⟩) 1 rfl
  exact ⟨rfl, h.1, h.2.1⟩

/-- Claim C4 (divergence witness): in `Crawler.find_articles` the walrus
precedence bug makes a failed fetch skip the seed (claimed, and true), but a
successful fetch passes the boolean `False` to `_process_seed`, which raises
`TypeError` inside `BeautifulSoup` — the links of the fetched body are never
extracted or merged, contradicting the claim's second half. -/
theorem claim4_fetch_walrus_bug :
    find_articles envC4fail mC4 ["s"] = .ok mC4 ∧
    find_articles envC4ok mC4 ["s"] = .error .typeError :=
  ⟨rfl, rfl⟩

/-- Claim C5 (counterexample): on a listing page with no next-pagination
control, `CrawlerRecursive.find_articles` does not return normally — the
walk crashes (`None['href']` raises `TypeError`), so the run result is
`crashed`, not `done`. -/
theorem claim5_counterexample :
    find_articles_rec envC5 1 none mC5 = .crashed none := rfl

/-- Claim C5 (amended): for every listing page whose body contains no "next"
pagination control, `get_search_urls` raises `TypeError` (subscripting the
absent `select_one` result), so the recursive walk terminates by propagating
that exception instead of returning normally. -/
theorem claim5_next_absent_crashes (env : CrawlEnv) (d : Option CrawlStateFile)
    (m : CrawlMem) (seed : String) (rest : List String) (page : String) (F : Nat)
    (h1 : (load_state d m).seed_urls = seed :: rest)
    (h2 : env.fetch seed = some page)
    (h3 : env.next_seed page = none) :
    crawl_iter env d m = .crashed d ∧
    find_articles_rec env (F + 1) d m = .crashed d := by
  have hg : get_search_urls env (load_state d m) = .error .typeError := by
    unfold get_search_urls
    rw [h1]
    simp [h2, optionToPy, beautifulSoup, h3]
  have hiter : crawl_iter env d m = .crashed d := by
    unfold crawl_iter crawl_body
    rw [hg]
  exact ⟨hiter, by rw [find_articles_rec, hiter]⟩

/-- Witness for the amended C5 at the concrete `envC5` site. -/
theorem claim5_witness :
    (load_state none mC5).seed_urls = "s1" :: [] ∧
    envC5.fetch "s1" = some "PAGE1" ∧
    envC5.next_seed "PAGE1" = none ∧
    crawl_iter envC5 none mC5 = .crashed none ∧
    find_articles_rec envC5 (0 + 1) none mC5 = .crashed none := by
  have h := claim5_next_absent_crashes envC5 none mC5 "s1" [] "PAGE1" 0 rfl rfl rfl
  exact ⟨rfl, rfl, rfl, h.1, h.2⟩

/-- Claim C6: `validate_config` raises `NumberOfArticlesOutOfRangeError` for
a total of `0` and of `100001`, `IncorrectNumberOfArticlesError` for the
string `"5"`, `IncorrectURLError` for `base_urls = ["not a url"]`, and on a
valid config returns `(base_urls, total, max-per-seed)`. -/
theorem claim6_validate_config_cases :
    validate_config ⟨some ["https://www.example.com/news"], some (.vInt 0),
        some (.vInt 3)⟩ = .error .numberOfArticlesOutOfRange ∧
    validate_config ⟨some ["https://www.example.com/news"], some (.vInt 100001),
        some (.vInt 3)⟩ = .error .numberOfArticlesOutOfRange ∧
    validate_config ⟨some ["https://www.example.com/news"], some (.vStr "5"),
        some (.vInt 3)⟩ = .error .incorrectNumberOfArticles ∧
    validate_config ⟨some ["not a url"], some (.vInt 5), some (.vInt 3)⟩ =
      .error .incorrectURL ∧
    validate_config ⟨some ["https://www.example.com/news"], some (.vInt 5),
        some (.vInt 3)⟩ =
      .ok (["https://www.example.com/news"], .vInt 5, .vInt 3) :=
  ⟨rfl, rfl, rfl, rfl, rfl⟩

/-- Claim C7 (divergence witness): with two discovered URLs whose first (in
sorted order) carries a non-ISO-8601 datetime attribute, the parse phase
aborts at that first article — the `ValueError` from `fromisoformat`
propagates, the second URL is never parsed (no construction recorded, no
state saved), so the bad date is not confined to the single article. -/
theorem claim7_date_error_aborts_run :
    parse_phase envP7 ["a.com/2", "a.com/1"] =
      ([(0, "a.com/1")], none, some .valueError) := by
  decide

/-- Claim C8: when merging a page's links makes the discovered set reach
exactly `max_articles`, the iteration returns `finished` with the on-disk
crawl state exactly as it was — `_save_state` is not called on that final
step. -/
theorem claim8_no_save_at_cap (env : CrawlEnv) (d : Option CrawlStateFile)
    (m : CrawlMem) (seed nxt : String) (links : List String)
    (h1 : get_search_urls env (load_state d m) = .ok (seed, nxt))
    (h2 : process_seed env
        { load_state d m with
            seed_urls := setHead (load_state d m).seed_urls nxt }
        (optionToPy (env.fetch seed)) = .ok links)
    (h3 : ((setUpdate (load_state d m).urls links).length : Int) =
        (load_state d m).max_articles) :
    crawl_iter env d m =
      .finished
        { load_state d m with
            seed_urls := setHead (load_state d m).seed_urls nxt,
            urls := setUpdate (load_state d m).urls links } d := by
  unfold crawl_iter crawl_body
  simp only [h1, h2]
  rw [if_pos h3]

/-- Witness for C8: a single listing page that fills the cap of 3 at once;
the iteration finishes and the disk state (here: still absent) is
untouched. -/
theorem claim8_witness :
    get_search_urls envC8 (load_state none mC8) = .ok ("s1", "s2") ∧
    crawl_iter envC8 none mC8 =
      .finished
        { load_state none mC8 with
            seed_urls := setHead (load_state none mC8).seed_urls "s2",
            urls := setUpdate (load_state none mC8).urls ["a", "b", "c"] }
        none :=
  ⟨rfl, claim8_no_save_at_cap envC8 none mC8 "s1" "s2" ["a", "b", "c"] rfl rfl rfl⟩

theorem parse_loop_trace (env : ParseEnv) :
    ∀ (l : List (Nat × String)) (d : Option ParserDisk) (tr : List (Nat × String)),
      ∃ j, (parse_loop env l d tr).1 = tr ++ l.take j := by
  intro l
  induction l with
  | nil => intro d tr; exact ⟨0, by simp [parse_loop]⟩
  | cons p rest ih =>
      intro d tr
      obtain ⟨i, u⟩ := p
      cases hp : parse env d u (i : Int) with
      | error e =>
          refine ⟨1, ?_⟩
          rw [parse_loop, hp]
          simp
      | ok res =>
          obtain ⟨o, d', c⟩ := res
          obtain ⟨j, hj⟩ := ih d' (tr ++ [(i, u)])
          refine ⟨j + 1, ?_⟩
          rw [parse_loop, hp]
          rw [hj, List.take_succ_cons]
          simp

/-- Claim C9: the parse phase constructs its `ArticleParser`s in the sorted
order of the discovered URLs — the parser with sequence id `k` is built for
the `k`-th element of the sorted URL list (even in runs aborted midway, the
recorded constructions form a prefix of that enumeration). -/
theorem claim9_sequence_ids_sorted (env : ParseEnv) (urls : List String) (k : Nat)
    (hk : k < ((parse_phase env urls).1).length) :
    ((parse_phase env urls).1)[k]? = ((pySorted urls)[k]?).map (fun u => (k, u)) := by
  obtain ⟨j, hj⟩ := parse_loop_trace env (List.enum (pySorted urls)) none []
  have htr : (parse_phase env urls).1 = (List.enum (pySorted urls)).take j := by
    simpa [parse_phase] using hj
  rw [htr] at hk ⊢
  have hkj : k < j := by
    rw [List.length_take] at hk
    omega
  rw [List.getElem?_take_of_lt hkj, List.getElem?_enum]

/-- Witness for C9 at a three-article site that parses to completion: the
construction with sequence id 1 is the second element of the sorted URL
list. -/
theorem claim9_witness :
    1 < ((parse_phase envP9 ["b.x", "a.x", "c.x"]).1).length ∧
    ((parse_phase envP9 ["b.x", "a.x", "c.x"]).1)[1]? =
      ((pySorted ["b.x", "a.x", "c.x"])[1]?).map (fun u => (1, u)) :=
  ⟨by decide, claim9_sequence_ids_sorted envP9 ["b.x", "a.x", "c.x"] 1 (by decide)⟩

/-- Claim C10: `validate_config` never inspects
`max_number_articles_to_get_from_one_seed`: with well-shaped URLs and an
in-range integer total it returns whatever value that key holds, and its
absence alone raises `UnknownConfigError`. -/
theorem claim10_max_per_seed_unchecked (urls : List String) (n : Int) (mps : PyVal)
    (hu : urls.all (fun x => url_check x) = true) (h0 : 0 < n) (h1 : n ≤ 100000) :
    validate_config ⟨some urls, some (.vInt n), some mps⟩ = .ok (urls, .vInt n, mps) ∧
    validate_config ⟨some urls, some (.vInt n), none⟩ = .error .unknownConfig := by
  have e0 : decide (0 < n) = true := decide_eq_true h0
  have e1 : decide (n ≤ 100000) = true := decide_eq_true h1
  constructor <;>
    simp [validate_config, pyIsInt, pyToInt, hu, e0, e1]

/-- Witness for C10: a string-valued per-seed cap passes through untouched,
and its absence raises `UnknownConfigError`. -/
theorem claim10_witness :
    (["https://www.example.com/news"].all (fun x => url_check x) = true) ∧
    ((0 : Int) < 5) ∧ ((5 : Int) ≤ 100000) ∧
    validate_config ⟨some ["https://www.example.com/news"], some (.vInt 5),
        some (.vStr "lots")⟩ =
      .ok (["https://www.example.com/news"], .vInt 5, .vStr "lots") ∧
    validate_config ⟨some ["https://www.example.com/news"], some (.vInt 5), none⟩ =
      .error .unknownConfig := by
  have h := claim10_max_per_seed_unchecked ["https://www.example.com/news"] 5
    (.vStr "lots") rfl (by decide) (by decide)
  exact ⟨rfl, by decide, by decide, h.1, h.2⟩

theorem process_seed_length (env : CrawlEnv) (m : CrawlMem) (pv : PyVal)
    (links : List String) (h : process_seed env m pv = .ok links)
    (hlen : (m.urls.length : Int) ≤ m.max_articles) :
    (links.length : Int) ≤ m.max_articles - (m.urls.length : Int) := by
  cases pv with
  | vStr page =>
      rw [process_seed_ok_eq env m page links h]
      exact length_pySliceTo_le _ _ (by omega)
  | vInt n => simp [process_seed, beautifulSoup] at h
  | vBool b => simp [process_seed, beautifulSoup] at h
  | vNone => simp [process_seed, beautifulSoup] at h

theorem step_inv (env : CrawlEnv) (d : Option CrawlStateFile) (m : CrawlMem)
    (d' : Option CrawlStateFile) (m' : CrawlMem)
    (hm : (m.urls.length : Int) ≤ m.max_articles) (hd : diskOK m.max_articles d)
    (h : crawl_iter env d m = .more d' m') :
    (m'.urls.length : Int) ≤ m'.max_articles ∧ diskOK m'.max_articles d' ∧
    m'.max_articles = m.max_articles := by
  have hmax := crawl_iter_more_max env d m d' m' h
  unfold crawl_iter at h
  obtain ⟨seed, nxt, links, hg, hp, hmem, hdisk, hne⟩ :=
    crawl_body_more_inv env d (load_state d m) d' m' h
  have hL : ((load_state d m).urls.length : Int) ≤ (load_state d m).max_articles := by
    cases d with
    | none => simpa [load_state] using hm
    | some f => simpa [load_state] using hd
  have hps := process_seed_length env
    { load_state d m with seed_urls := setHead (load_state d m).seed_urls nxt }
    (optionToPy (env.fetch seed)) links hp (by simpa using hL)
  have hupd := setUpdate_length_le links (load_state d m).urls
  have hmem_len : (m'.urls.length : Int) ≤ m'.max_articles := by
    rw [hmem]
    simp only []
    simp at hps
    omega
  refine ⟨hmem_len, ?_, hmax.1⟩
  rw [hdisk]
  show ((setOfList (save_file m').urls).length : Int) ≤ m'.max_articles
  have h1 : (setOfList (pySorted m'.urls)).length ≤ (pySorted m'.urls).length :=
    setOfList_length_le _
  have h2 := pySorted_length m'.urls
  simp only [save_file]
  omega

theorem run_inv (env : CrawlEnv) :
    ∀ (n : Nat) (d : Option CrawlStateFile) (m : CrawlMem)
      (p : Option CrawlStateFile × CrawlMem),
      (m.urls.length : Int) ≤ m.max_articles → diskOK m.max_articles d →
      crawl_state_after env n d m = some p →
      (p.2.urls.length : Int) ≤ m.max_articles ∧ p.2.max_articles = m.max_articles := by
  intro n
  induction n with
  | zero =>
      intro d m p hm hd h
      rw [crawl_state_after] at h
      injection h with h'
      rw [← h']
      exact ⟨hm, rfl⟩
  | succ n ih =>
      intro d m p hm hd h
      rw [crawl_state_after] at h
      cases hit : crawl_iter env d m with
      | more d1 m1 =>
          rw [hit] at h
          have hs := step_inv env d m d1 m1 hm hd hit
          have hr := ih d1 m1 p hs.1 hs.2.1 h
          exact ⟨hr.1.trans_eq hs.2.2, hr.2.trans hs.2.2⟩
      | finished m1 d1 => rw [hit] at h; simp at h
      | crashed d1 => rw [hit] at h; simp at h

theorem run_done_inv (env : CrawlEnv) :
    ∀ (F : Nat) (d : Option CrawlStateFile) (m U : CrawlMem)
      (dend : Option CrawlStateFile),
      (m.urls.length : Int) ≤ m.max_articles → diskOK m.max_articles d →
      find_articles_rec env F d m = .done U dend →
      (U.urls.length : Int) ≤ m.max_articles := by
  intro F
  induction F with
  | zero => intro d m U dend hm hd h; rw [find_articles_rec] at h; simp at h
  | succ F ih =>
      intro d m U dend hm hd h
      rw [find_articles_rec] at h
      cases hit : crawl_iter env d m with
      | finished m1 d1 =>
          rw [hit] at h
          simp only [RunResult.done.injEq] at h
          obtain ⟨hU, _⟩ := h
          rw [← hU]
          unfold crawl_iter at hit
          obtain ⟨seed, nxt, links, hg, hp, hmem, hdd, hcap⟩ :=
            crawl_body_finished_inv env d (load_state d m) d1 m1 hit
          have hLmax := (load_state_max d m).1
          rw [hmem]
          simp only []
          omega
      | crashed d1 => rw [hit] at h; simp at h
      | more d1 m1 =>
          rw [hit] at h
          have hs := step_inv env d m d1 m1 hm hd hit
          have hr := ih d1 m1 U dend hs.1 hs.2.1 h
          exact hr.trans_eq hs.2.2

/-- Claim C1: the crawl never exceeds its caps. For every page body,
`_process_seed` returns at most
`min max_articles_per_seed (max_articles - len(urls))` links; merging them
keeps `len(urls) ≤ max_articles`; every state reachable by the recursive
walk, and every normally-returned final state, satisfies
`len(urls) ≤ max_articles`. -/
theorem claim1_caps (env : CrawlEnv) (m : CrawlMem) (page : String)
    (links : List String)
    (hok : process_seed env m (.vStr page) = .ok links)
    (hmps : 0 ≤ m.max_articles_per_seed)
    (hlen : (m.urls.length : Int) ≤ m.max_articles) :
    (links.length : Int) ≤
      min m.max_articles_per_seed (m.max_articles - (m.urls.length : Int)) ∧
    ((setUpdate m.urls links).length : Int) ≤ m.max_articles ∧
    (∀ (n : Nat) (d₀ : Option CrawlStateFile) (m₀ : CrawlMem)
        (p : Option CrawlStateFile × CrawlMem),
      (m₀.urls.length : Int) ≤ m₀.max_articles → diskOK m₀.max_articles d₀ →
      crawl_state_after env n d₀ m₀ = some p →
      (p.2.urls.length : Int) ≤ m₀.max_articles) ∧
    (∀ (F : Nat) (d₀ : Option CrawlStateFile) (m₀ U : CrawlMem)
        (dend : Option CrawlStateFile),
      (m₀.urls.length : Int) ≤ m₀.max_articles → diskOK m₀.max_articles d₀ →
      find_articles_rec env F d₀ m₀ = .done U dend →
      (U.urls.length : Int) ≤ m₀.max_articles) := by
  have hx := process_seed_ok_eq env m page links hok
  have h1 : links.length ≤
      (pySliceTo (env.extract_url page) m.max_articles_per_seed).length := by
    rw [hx]; exact length_pySliceTo_le_self _ _
  have h2 : ((pySliceTo (env.extract_url page) m.max_articles_per_seed).length : Int) ≤
      m.max_articles_per_seed := length_pySliceTo_le _ _ hmps
  have h3 : (links.length : Int) ≤ m.max_articles - (m.urls.length : Int) := by
    rw [hx]; exact length_pySliceTo_le _ _ (by omega)
  have h4 := setUpdate_length_le links m.urls
  refine ⟨le_min (by exact_mod_cast le_trans (Nat.cast_le.mpr h1) h2) h3,
    by omega, ?_, ?_⟩
  · exact fun n d₀ m₀ p hm hd h => (run_inv env n d₀ m₀ p hm hd h).1
  · exact fun F d₀ m₀ U dend hm hd h => run_done_inv env F d₀ m₀ U dend hm hd h

/-- Witness for C1 at the concrete two-page site `envW`: the first page's
links respect both caps, and the states reached by the walk (including the
final one) respect the global cap of 3. -/
theorem claim1_witness :
    process_seed envW m0W (.vStr "P1") = .ok ["a", "b"] ∧
    (((["a", "b"] : List String).length : Int) ≤
      min m0W.max_articles_per_seed (m0W.max_articles - (m0W.urls.length : Int))) ∧
    ((setUpdate m0W.urls ["a", "b"]).length : Int) ≤ m0W.max_articles ∧
    ((m1W.urls.length : Int) ≤ m0W.max_articles) ∧
    ((mUW.urls.length : Int) ≤ m0W.max_articles) := by
  have h := claim1_caps envW m0W "P1" ["a", "b"] rfl (by decide) (by decide)
  refine ⟨rfl, h.1, h.2.1, ?_, ?_⟩
  · exact h.2.2.1 1 none m0W (some sW, m1W) (by decide) trivial (by decide)
  · exact h.2.2.2 2 none m0W mUW (some sW) (by decide) trivial (by decide)

/-- Claim C2: the recursive walk is resumable. If the uninterrupted run from
`(d₀, m₀)` finishes with final memory `U` and final disk `dend`, and the
process is killed at any point where the persisted crawl state is `s`
(after the state-persisting step of any completed iteration), then a
restarted run — a fresh crawler with the same configured caps, loading `s` —
finishes with exactly the same `U` and `dend`, in particular the same final
discovered URL set. -/
theorem claim2_resumable (env : CrawlEnv) (mf : CrawlMem) (k F : Nat)
    (d₀ : Option CrawlStateFile) (m₀ m' : CrawlMem) (s : CrawlStateFile)
    (U : CrawlMem) (dend : Option CrawlStateFile)
    (hA : mf.max_articles = m₀.max_articles)
    (hP : mf.max_articles_per_seed = m₀.max_articles_per_seed)
    (hkill : crawl_state_after env k d₀ m₀ = some (some s, m'))
    (hrun : find_articles_rec env F d₀ m₀ = .done U dend) :
    find_articles_rec env F (some s) mf = .done U dend := by
  revert F d₀ m₀ hA hP hkill hrun
  induction k with
  | zero =>
      intro F d₀ m₀ hA hP hkill hrun
      rw [crawl_state_after] at hkill
      simp only [Option.some.injEq, Prod.mk.injEq] at hkill
      obtain ⟨hd, hm⟩ := hkill
      subst hd
      subst hm
      rw [find_articles_rec_cfg env mf m₀ hA hP F s]
      exact hrun
  | succ k ih =>
      intro F d₀ m₀ hA hP hkill hrun
      rw [crawl_state_after] at hkill
      cases hit : crawl_iter env d₀ m₀ with
      | more d1 m1 =>
          rw [hit] at hkill
          cases F with
          | zero => rw [find_articles_rec] at hrun; simp at hrun
          | succ F1 =>
              rw [find_articles_rec, hit] at hrun
              have hmax := crawl_iter_more_max env d₀ m₀ d1 m1 hit
              have hdone := ih F1 d1 m1 (hA.trans hmax.1.symm)
                (hP.trans hmax.2.symm) hkill hrun
              exact find_articles_rec_mono env F1 (some s) mf U dend hdone
      | finished m1 d1 => rw [hit] at hkill; simp at hkill
      | crashed d1 => rw [hit] at hkill; simp at hkill

/-- Witness for C2 at the concrete two-page site `envW`: killing after the
first iteration's save (persisted state `sW`) and restarting with a fresh
crawler reproduces the uninterrupted run's final URL set `{a, b, c}` and
final disk state. -/
theorem claim2_witness :
    crawl_state_after envW 1 none m0W = some (some sW, m1W) ∧
    find_articles_rec envW 2 none m0W = .done mUW (some sW) ∧
    find_articles_rec envW 2 (some sW) m0W = .done mUW (some sW) :=
  ⟨by decide, by decide,
    claim2_resumable envW m0W 1 2 none m0W m1W sW mUW (some sW) rfl rfl
      (by decide) (by decide)⟩

end Scrapper
